import Mathlib

/-!
Verification development for the `personal-userbot` repository.

The development shallowly embeds the two modules the claims are about:
`src/personal_userbot/rules.py` (rule data model, matching engine, JSON
persistence) and the message-routing handler of
`src/personal_userbot/runner.py` (command detection, the conversational
rule-authoring state machine, chat filtering, record emission).

Modelling conventions:
- Python `str` is Lean `String`; `str.casefold`/`str.lower` are modelled by a
  per-character ASCII lowering (the repository only compares keywords, command
  words and sentinels, for which the two coincide).
- Python `set[int]` is modelled as a `List Int` used with set semantics only
  (membership, add-if-absent union, sorted iteration, emptiness/truthiness).
- Python `None`-able values are `Option`; raised exceptions are `Except.error`
  carrying the message text.
- The Telegram transport, the Google-Sheets sink, the clock and the
  filesystem are external collaborators: the handler is modelled as a pure
  function from (settings, router state, inbound event) to (new state,
  responses, messages sent to the self-chat, records handed to the sink), and
  the rules file is carried in the state as the JSON value last written.
-/

namespace PersonalUserbot

/-! ## Python string primitives -/

/-- Characters Python's `str.strip()` removes (ASCII whitespace). -/
def isPySpace (c : Char) : Bool :=
  c = ' ' || c = '\t' || c = '\n' || c = '\r' || c = '\x0b' || c = '\x0c'

/-- Python `str.strip()`: drop leading and trailing whitespace. -/
def pyStrip (s : String) : String :=
  String.mk (((s.data.dropWhile isPySpace).reverse.dropWhile isPySpace).reverse)

/-- Per-character lowering; models Python case folding on the ASCII data the
repository compares (command words, sentinels, keywords). -/
def lowerChar (c : Char) : Char := c.toLower

/-- Python `str.lower()`. -/
def pyLower (s : String) : String := String.mk (s.data.map lowerChar)

/-- Python `str.casefold()` as used in `rules.py`; on the ASCII keyword data
this coincides with lowering. -/
def casefold (s : String) : String := String.mk (s.data.map lowerChar)

/-- Whether `needle` occurs as a contiguous sublist of `haystack`. -/
def listInfix [DecidableEq α] (needle haystack : List α) : Bool :=
  match haystack with
  | [] => needle.isEmpty
  | _ :: rest => needle.isPrefixOf haystack || listInfix needle rest

/-- Python substring containment `needle in haystack`. -/
def strContains (haystack needle : String) : Bool :=
  listInfix needle.data haystack.data

/-! ## Python int-set primitives (`set[int]` modelled as a list) -/

/-- Python `set.add`: add an element if absent. -/
def setAdd (s : List Int) (x : Int) : List Int :=
  if x ∈ s then s else s ++ [x]

/-- Python `set.update`: union the elements of `t` into `s`. -/
def setUnion (s t : List Int) : List Int := t.foldl setAdd s

/-- Insert an integer into a sorted list, keeping it sorted. -/
def insSorted (x : Int) : List Int → List Int
  | [] => [x]
  | y :: ys => if x ≤ y then x :: y :: ys else y :: insSorted x ys

/-- Insertion sort on integer lists. -/
def sortInts (l : List Int) : List Int := l.foldr insSorted []

/-- Python `sorted(someSet)`: the distinct elements in increasing order. -/
def sortedSet (l : List Int) : List Int := sortInts l.dedup

/-! ## Rule data model (`rules.py`, class `Rule`) -/

/-- A keyword match rule (`rules.py` lines 14-27). `chat_ids` is
`Optional[Set[int]]`: `none` means the rule applies to all chats. -/
structure Rule where
  label : String
  include_all : List String
  include_any : List String
  exclude : List String
  chat_ids : Option (List Int)
deriving DecidableEq, Repr

/-- `Rule.applies_to_chat` (`rules.py` lines 24-27): a `none` chat id or a
rule without scoping always passes; otherwise membership decides. -/
def Rule.applies_to_chat (r : Rule) (chat_id : Option Int) : Bool :=
  match chat_id, r.chat_ids with
  | none, _ => true
  | _, none => true
  | some c, some s => c ∈ s

/-! ## RuleSet (`rules.py`, class `RuleSet`) -/

/-- A `RuleSet`: the rule list plus the derived chat-id cache (`_chat_ids`),
the union of all truthy `chat_ids` fields. -/
structure RuleSet where
  rules : List Rule
  cacheChatIds : List Int
deriving DecidableEq, Repr

/-- One step of the chat-cache accumulation (`if rule.chat_ids:
chat_ids.update(rule.chat_ids)`): union the rule's chat ids into the
accumulator when the field is truthy (present and non-empty). -/
def cacheStep (acc : List Int) (r : Rule) : List Int :=
  match r.chat_ids with
  | some s => if s = [] then acc else setUnion acc s
  | none => acc

/-- `RuleSet._rebuild_chat_cache` (`rules.py` lines 54-59). -/
def rebuildChatCache (rules : List Rule) : List Int :=
  rules.foldl cacheStep []

/-- `RuleSet.__init__`: store the rules and rebuild the cache. -/
def RuleSet.ofRules (rules : List Rule) : RuleSet :=
  ⟨rules, rebuildChatCache rules⟩

/-- `RuleSet.chat_ids` property (`rules.py` lines 41-43): `self._chat_ids or
None`, i.e. `none` when the cache is empty. -/
def RuleSet.chatIds (rs : RuleSet) : Option (List Int) :=
  if rs.cacheChatIds = [] then none else some rs.cacheChatIds

/-- `RuleSet.add_rule` (`rules.py` lines 45-48): append the rule and, when its
`chat_ids` is truthy, union it into the cache. -/
def RuleSet.add_rule (rs : RuleSet) (r : Rule) : RuleSet :=
  ⟨rs.rules ++ [r], cacheStep rs.cacheChatIds r⟩

/-- The text-only conditions of `RuleSet.match` (`rules.py` lines 69-82): the
`include_all`, `include_any` and `exclude` checks against the casefolded
text, each vacuous on an empty keyword list exactly as in the source's
truthiness guards. -/
def ruleTextOk (r : Rule) (normalized : String) : Bool :=
  !(!r.include_all.isEmpty &&
      !r.include_all.all (fun k => strContains normalized (casefold k))) &&
  !(!r.include_any.isEmpty &&
      !r.include_any.any (fun k => strContains normalized (casefold k))) &&
  !(!r.exclude.isEmpty &&
      r.exclude.any (fun k => strContains normalized (casefold k)))

/-- One loop iteration of `RuleSet.match`: the rule is kept iff none of the
four `continue` guards fires. -/
def ruleMatches (r : Rule) (chat_id : Option Int) (normalized : String) : Bool :=
  r.applies_to_chat chat_id && ruleTextOk r normalized

/-- `RuleSet.match` (`rules.py` lines 61-85; `match` is a reserved word in
Lean, hence the name). Returns, in definition order, the rules whose guards
all pass against the casefolded text. -/
def RuleSet.matchRules (rs : RuleSet) (chat_id : Option Int) (text : String) : List Rule :=
  let normalized := casefold text
  rs.rules.filter (fun r => ruleMatches r chat_id normalized)

/-! ## JSON values and the rules file -/

/-- JSON values as produced by `json.loads` (floats omitted: the repository's
rule schema only uses strings, integers, arrays and objects). -/
inductive Json where
  | null
  | bool (b : Bool)
  | int (n : Int)
  | str (s : String)
  | arr (items : List Json)
  | obj (fields : List (String × Json))

/-- Python truthiness of a decoded JSON value. -/
def Json.truthy : Json → Bool
  | .null => false
  | .bool b => b
  | .int n => n ≠ 0
  | .str s => s ≠ ""
  | .arr l => !l.isEmpty
  | .obj l => !l.isEmpty

/-- Python dict `get`: the value at the first matching key, if any. -/
def jget (fields : List (String × Json)) (k : String) : Option Json :=
  (fields.find? (fun p => p.1 == k)).map (fun p => p.2)

/-- Python `a or b` where `a` is an optional lookup (missing key is falsy). -/
def pyOrOpt (a b : Option Json) : Option Json :=
  match a with
  | some j => if j.truthy then some j else b
  | none => b

/-- Python `a or d` with a JSON default. -/
def pyOrJ (a : Option Json) (d : Json) : Json :=
  match a with
  | some j => if j.truthy then j else d
  | none => d

/-- Python `str()` on JSON-decoded values. For decoded lists and dicts
`str()` yields their `repr`; no rule file the claims exercise stores lists or
dicts inside keyword or label fields, so those two cases are rendered by a
fixed marker rather than a full repr printer. -/
def pyStr : Json → String
  | .null => "None"
  | .bool b => if b then "True" else "False"
  | .int n => toString n
  | .str s => s
  | .arr _ => "[...]"
  | .obj _ => "\x7b...\x7d"

/-- Python `int(str)`: strip whitespace, optional sign, decimal digits. -/
def pyIntOfString (s : String) : Option Int :=
  let t := (pyStrip s).data
  match t with
  | '-' :: ds =>
    if ds ≠ [] && ds.all Char.isDigit then
      some (-(Int.ofNat (ds.foldl (fun acc c => acc * 10 + (c.toNat - '0'.toNat)) 0)))
    else none
  | '+' :: ds =>
    if ds ≠ [] && ds.all Char.isDigit then
      some (Int.ofNat (ds.foldl (fun acc c => acc * 10 + (c.toNat - '0'.toNat)) 0))
    else none
  | ds =>
    if ds ≠ [] && ds.all Char.isDigit then
      some (Int.ofNat (ds.foldl (fun acc c => acc * 10 + (c.toNat - '0'.toNat)) 0))
    else none

/-- Python `int(item)` on a JSON-decoded value: ints pass through, bools are
0/1, strings are parsed, anything else raises (TypeError/ValueError). -/
def pyInt : Json → Option Int
  | .int n => some n
  | .bool b => some (if b then 1 else 0)
  | .str s => pyIntOfString s
  | _ => none

/-! ## Rule persistence (`rules.py`, `load_rules` / `save_rules`) -/

/-- Outcome of reading the rules file before schema interpretation: the file
is missing (`path.exists()` false), its text is blank
(`raw_text.strip()` falsy), `json.loads` raised, or decoding succeeded. -/
inductive FileState where
  | missing
  | blank
  | malformed
  | parsed (data : Json)

/-- `_ensure_list` (`rules.py` lines 88-95): `None` becomes `[]`, a string
becomes a singleton, a list is mapped through `str`, anything else raises.
The missing-key case (`none`) and a present JSON `null` are both Python
`None`. -/
def ensureList (value : Option Json) (fieldName label : String) : Except String (List String) :=
  match value with
  | none => .ok []
  | some .null => .ok []
  | some (.str s) => .ok [s]
  | some (.arr items) => .ok (items.map pyStr)
  | some _ =>
    .error (s!"Field \x27{fieldName}\x27 for rule \x27{label}\x27 must be a string or list.")

/-- Loop body of `_parse_chat_ids`: add `int(item)` for each element, raising
a labelled error when the conversion fails. -/
def parseChatIdItems (label : String) : List Json → List Int → Except String (List Int)
  | [], acc => .ok acc
  | item :: rest, acc =>
    match pyInt item with
    | some n => parseChatIdItems label rest (setAdd acc n)
    | none =>
      let it := pyStr item
      .error (s!"Invalid chat id \x27{it}\x27 for rule \x27{label}\x27.")

/-- `_parse_chat_ids` (`rules.py` lines 98-113): `None` stays `None`, a
non-list raises, otherwise each element goes through `int`, and the final
`chat_ids or None` collapses an empty set back to `None`. -/
def parseChatIds (value : Option Json) (label : String) : Except String (Option (List Int)) :=
  match value with
  | none => .ok none
  | some .null => .ok none
  | some (.arr items) =>
    match parseChatIdItems label items [] with
    | .ok acc => .ok (if acc = [] then none else some acc)
    | .error e => .error e
  | some _ =>
    .error (s!"Field \x27chats\x27 for rule \x27{label}\x27 must be a list of integers.")

/-- One iteration of the `load_rules` loop (`rules.py` lines 156-188): a rule
entry must be an object, its label (or `name` alias) must be non-blank after
stripping, the keyword fields are normalised via `_ensure_list` (with the
`include` alias feeding `include_all`), chat ids are parsed, and at least one
keyword must exist across `include_all` and `include_any`. -/
def parseRawRule (raw : Json) : Except String Rule :=
  match raw with
  | .obj fields =>
    let label := pyStrip (pyStr (pyOrJ (pyOrOpt (jget fields "label") (jget fields "name")) (.str "")))
    if label = "" then
      .error "Setiap rule wajib memiliki field \x27label\x27."
    else
      match ensureList (pyOrOpt (jget fields "include_all") (jget fields "include")) "include_all" label with
      | .error e => .error e
      | .ok include_all =>
        match ensureList (jget fields "include_any") "include_any" label with
        | .error e => .error e
        | .ok include_any =>
          match ensureList (jget fields "exclude") "exclude" label with
          | .error e => .error e
          | .ok exclude =>
            match parseChatIds (jget fields "chats") label with
            | .error e => .error e
            | .ok chat_ids =>
              if include_all = [] ∧ include_any = [] then
                .error (s!"Rule \x27{label}\x27 perlu setidaknya satu keyword via \x27include_all\x27 atau \x27include_any\x27.")
              else
                .ok ⟨label, include_all, include_any, exclude, chat_ids⟩
  | _ => .error "Setiap rule harus berbentuk objek dengan key-value."

/-- The `load_rules` loop over the raw rule entries, aborting on the first
error. -/
def parseRawRules : List Json → Except String (List Rule)
  | [] => .ok []
  | raw :: rest =>
    match parseRawRule raw with
    | .error e => .error e
    | .ok r =>
      match parseRawRules rest with
      | .error e => .error e
      | .ok rs => .ok (r :: rs)

/-- `load_rules` (`rules.py` lines 116-191), taken from the read/decode
outcome. A missing or blank file yields an empty `RuleSet`; a JSON decode
failure raises; the top level must be an object (whose falsy-or-missing
`rules` field defaults to `[]` and must otherwise be a list) or a bare list;
each entry is parsed by `parseRawRule`. Path and exception interpolations in
the Indonesian error texts are elided. -/
def load_rules (fs : FileState) : Except String RuleSet :=
  match fs with
  | .missing => .ok (RuleSet.ofRules [])
  | .blank => .ok (RuleSet.ofRules [])
  | .malformed => .error "Rules file tidak valid. Periksa format JSON."
  | .parsed data =>
    match data with
    | .obj fields =>
      match pyOrJ (jget fields "rules") (.arr []) with
      | .arr l =>
        match parseRawRules l with
        | .ok rules => .ok (RuleSet.ofRules rules)
        | .error e => .error e
      | _ => .error "Field \x27rules\x27 harus berupa list."
    | .arr l =>
      match parseRawRules l with
      | .ok rules => .ok (RuleSet.ofRules rules)
      | .error e => .error e
    | _ => .error "Rules file harus berupa objek dengan field \x27rules\x27 atau list."

/-- Serialisation of one rule in `save_rules` (`rules.py` lines 197-207):
the four keyword fields always, plus a sorted `chats` list only when
`chat_ids` is truthy. -/
def ruleToJson (r : Rule) : Json :=
  .obj ([("label", .str r.label),
         ("include_all", .arr (r.include_all.map .str)),
         ("include_any", .arr (r.include_any.map .str)),
         ("exclude", .arr (r.exclude.map .str))] ++
        (match r.chat_ids with
         | some s => if s = [] then [] else [("chats", .arr ((sortedSet s).map Json.int))]
         | none => []))

/-- `save_rules` (`rules.py` lines 194-212): the JSON payload written to the
rules file, an object with a `rules` array. -/
def save_rules (rules : List Rule) : Json :=
  .obj [("rules", .arr (rules.map ruleToJson))]

/-! ## Runner data model (`runner.py`) -/

/-- `PendingRuleSession` (`runner.py` lines 29-38). -/
structure PendingRuleSession where
  origin_chat_id : Int
  requested_by : Int
  target_chat_id : Int
  step : String
  label : Option String
  include_all : List String
  include_any : List String
  exclude : List String
deriving DecidableEq, Repr

/-- The two suppression flags of `Settings` the handler consults
(`config.py`; the remaining settings are credentials/paths handled by
external collaborators). -/
structure SettingsFlags where
  ignore_self_messages : Bool
  ignore_bot_messages : Bool
deriving DecidableEq, Repr

/-- The fields of a Telethon message event the handler reads. `sender_is_bot`
models `message.sender and getattr(message.sender, "bot", False)`: the sender
entity is present and is a bot. -/
structure Message where
  out : Bool
  sender_id : Option Int
  text : String
  id : Int
  sender_is_bot : Bool
deriving DecidableEq, Repr

/-- An inbound event: `event.chat_id` (may be `None`) and `event.message`
(may be `None`; a message with empty text models falsy `message.text`). -/
structure Event where
  chat_id : Option Int
  message : Option Message
deriving DecidableEq, Repr

/-- The computable fields of a `MessageRecord` (`sheets_logger.py`): chat
name, usernames and timestamps come from the transport and the clock and are
omitted from the embedding. -/
structure MessageRecord where
  label : String
  chat_id : Int
  telegram_id : Option Int
  message_id : Int
  message_text : String
  message_link : Option String
  matched_keywords : List String
  excluded_keywords : List String
deriving DecidableEq, Repr

/-- The mutable state the handler closure reads and writes: the pending
session map (a dict keyed by origin chat id), the repository's active
`RuleSet`, and the JSON payload last written to the rules file. -/
structure RouterState where
  pending_sessions : Int → Option PendingRuleSession
  rule_set : RuleSet
  rules_file : Json

/-- Everything one handler invocation produces besides the new state:
`event.respond` texts, texts sent to the self-chat (`send_message("me", …)`),
and the records handed to the sheet sink. -/
structure HandlerOutput where
  state : RouterState
  responses : List String
  sent_to_me : List String
  records : List MessageRecord

/-! ## Runner helper functions -/

/-- `_parse_keywords` (`runner.py` lines 201-211): strip; empty or a
case-insensitive `-`/`skip`/`none` sentinel yields `[]`; otherwise split on
runs of comma, semicolon or newline, strip each part and drop empties. -/
def isSepChar (c : Char) : Bool := c = ',' || c = '\n' || c = ';'

/-- Split a character list on maximal runs of separator characters, keeping
the (possibly empty) leading and trailing parts, like
`re.split(r"[,\n;]+", s)`. -/
def splitRunsList : List Char → List (List Char)
  | [] => [[]]
  | c :: rest =>
    let r := splitRunsList rest
    if isSepChar c then
      match rest with
      | c2 :: _ => if isSepChar c2 then r else [] :: r
      | [] => [] :: r
    else
      match r with
      | p :: ps => (c :: p) :: ps
      | [] => [[c]]

/-- String wrapper for `splitRunsList`. -/
def splitRuns (s : String) : List String := (splitRunsList s.data).map String.mk

/-- `_parse_keywords` itself. -/
def _parse_keywords (raw : String) : List String :=
  let cleaned := pyStrip raw
  if cleaned = "" then []
  else if pyLower cleaned = "-" ∨ pyLower cleaned = "skip" ∨ pyLower cleaned = "none" then []
  else ((splitRuns cleaned).map pyStrip).filter (fun p => p ≠ "")

/-- `_fmt_keywords` (`runner.py` lines 213-214). -/
def _fmt_keywords (keywords : List String) : String :=
  if keywords = [] then "-" else String.intercalate ", " keywords

/-- `_matched_keywords` (`runner.py` lines 109-115): the include keywords
actually present in the casefolded text, `include_all` first. -/
def _matched_keywords (rule : Rule) (text : String) : List String :=
  let normalized := casefold text
  (rule.include_all ++ rule.include_any).filter
    (fun k => strContains normalized (casefold k))

/-- `_build_message_link` (`runner.py` lines 99-106): no link for
non-negative chat ids; channel ids drop the `-100` marker, other negative ids
drop the sign. -/
def _build_message_link (chat_id : Int) (message_id : Int) : Option String :=
  if chat_id ≥ 0 then none
  else
    let s := toString chat_id
    let channel_id :=
      if "-100".data.isPrefixOf s.data then String.mk (s.data.drop 4)
      else String.mk (s.data.drop 1)
    some ("https://t.me/c/" ++ channel_id ++ "/" ++ toString message_id)

/-- The regex `^!watch\s+(-?\d+)` with `re.IGNORECASE`, applied by
`re.match`: a case-insensitive `!watch`, at least one whitespace character,
an optionally-signed digit run (the captured target chat id), then anything.
Returns the captured integer. -/
def parseWatchCommand (s : String) : Option Int :=
  match s.data with
  | b :: w :: a :: t :: c :: h :: rest =>
    if b = '!' && lowerChar w = 'w' && lowerChar a = 'a' && lowerChar t = 't'
        && lowerChar c = 'c' && lowerChar h = 'h' then
      match rest with
      | r0 :: rs =>
        if isPySpace r0 then
          let afterSpaces := rs.dropWhile isPySpace
          match afterSpaces with
          | '-' :: ds =>
            let digs := ds.takeWhile Char.isDigit
            if digs = [] then none
            else some (-(Int.ofNat (digs.foldl (fun acc ch => acc * 10 + (ch.toNat - '0'.toNat)) 0)))
          | ds =>
            let digs := ds.takeWhile Char.isDigit
            if digs = [] then none
            else some (Int.ofNat (digs.foldl (fun acc ch => acc * 10 + (ch.toNat - '0'.toNat)) 0))
        else none
      | [] => none
    else none
  | _ => none

/-- `is_saved_messages` (`runner.py` lines 225-227): the sender is known and
the chat is the sender's own chat. -/
def isSavedMessages (chat_id : Int) (m : Message) : Bool :=
  match m.sender_id with
  | none => false
  | some sid => chat_id = sid

/-- Truthiness-guarded exclusion check `manual_chat_filter and x not in
manual_chat_filter` used at `runner.py` lines 258, 339 and 347. -/
def mcfExcludes (mcf : Option (List Int)) (x : Int) : Bool :=
  match mcf with
  | some f => !f.isEmpty && !(x ∈ f)
  | none => false

/-- Dict update/removal on the pending-session map. -/
def updateSessions (m : Int → Option PendingRuleSession) (c : Int)
    (v : Option PendingRuleSession) : Int → Option PendingRuleSession :=
  fun x => if x = c then v else m x

/-! ## Handler (runner.py lines 217-411) -/

/-- The redirect notice sent to the self-chat when `!watch` is issued outside
Saved Messages (`runner.py` lines 231-235). -/
def watchRedirectNotice : String :=
  "Perintah !watch hanya boleh dijalankan dari Saved Messages (chat dengan diri sendiri)." ++
  " Kirim ulang perintah di sana."

/-- Steps 6-10 of the router: manual allow-list, derived chat-scope cache,
suppression flags, rule matching and record construction
(`runner.py` lines 347-411). -/
def handlerFilters (settings : SettingsFlags) (mcf : Option (List Int))
    (st : RouterState) (chat_id : Int) (message : Message) : HandlerOutput :=
  if mcfExcludes mcf chat_id then ⟨st, [], [], []⟩
  else
    let cacheBlocks :=
      match st.rule_set.chatIds with
      | some f => !(chat_id ∈ f)
      | none => false
    if cacheBlocks then ⟨st, [], [], []⟩
    else if settings.ignore_self_messages && message.out then ⟨st, [], [], []⟩
    else if settings.ignore_bot_messages && message.sender_is_bot then ⟨st, [], [], []⟩
    else
      let matched := st.rule_set.matchRules (some chat_id) message.text
      if matched = [] then ⟨st, [], [], []⟩
      else
        let link := _build_message_link chat_id message.id
        ⟨st, [], [],
         matched.map (fun rule =>
           { label := rule.label
             chat_id := chat_id
             telegram_id := message.sender_id
             message_id := message.id
             message_text := message.text
             message_link := link
             matched_keywords := _matched_keywords rule message.text
             excluded_keywords := rule.exclude })⟩

/-- The four authoring steps (`runner.py` lines 271-345), reached for an
outgoing message with a live session in this chat; an unrecognised step value
falls through to the filter section exactly as in the source. -/
def handlerSessionStep (settings : SettingsFlags) (mcf : Option (List Int))
    (st : RouterState) (chat_id : Int) (text : String) (message : Message)
    (s : PendingRuleSession) : HandlerOutput :=
  if s.step = "label" then
    if text = "" then
      ⟨st, ["Label tidak boleh kosong. Coba kirim lagi."], [], []⟩
    else
      let s' := { s with label := some text, step := "include_all" }
      ⟨{ st with pending_sessions := updateSessions st.pending_sessions chat_id (some s') },
       ["Langkah 2 dari 4 — sebutkan keyword wajib (include_all).\nPisahkan dengan koma atau baris baru. Kirim \x27-\x27 jika tidak ada."],
       [], []⟩
  else if s.step = "include_all" then
    let s' := { s with include_all := _parse_keywords text, step := "include_any" }
    let prompt :=
      "Langkah 3 dari 4 — keyword opsional (include_any).\nPisahkan dengan koma atau baris baru. Kirim \x27-\x27 jika tidak ada." ++
      (if s'.include_all = [] then
        "\nCatatan: karena belum ada include_all, minimal satu keyword harus diisi di langkah ini."
       else "")
    ⟨{ st with pending_sessions := updateSessions st.pending_sessions chat_id (some s') },
     [prompt], [], []⟩
  else if s.step = "include_any" then
    let keywords := _parse_keywords text
    if keywords = [] ∧ s.include_all = [] then
      ⟨st, ["Minimal harus ada satu keyword. Masukkan keyword include_any dipisahkan koma."], [], []⟩
    else
      let s' := { s with include_any := keywords, step := "exclude" }
      ⟨{ st with pending_sessions := updateSessions st.pending_sessions chat_id (some s') },
       ["Langkah 4 dari 4 — keyword pengecualian (exclude).\nPisahkan dengan koma atau kirim \x27-\x27 jika tidak ada."],
       [], []⟩
  else if s.step = "exclude" then
    let new_rule : Rule :=
      { label := s.label.getD ""
        include_all := s.include_all
        include_any := s.include_any
        exclude := _parse_keywords text
        chat_ids := some [s.target_chat_id] }
    let rs' := st.rule_set.add_rule new_rule
    let st' : RouterState :=
      { pending_sessions := updateSessions st.pending_sessions chat_id none
        rule_set := rs'
        rules_file := save_rules rs'.rules }
    let tgt := s.target_chat_id
    let lbl := new_rule.label
    let fAll := _fmt_keywords new_rule.include_all
    let fAny := _fmt_keywords new_rule.include_any
    let fExc := _fmt_keywords new_rule.exclude
    let summary_lines :=
      [s!"Watcher baru tersimpan untuk chat {tgt}:",
       s!"- Label: {lbl}",
       s!"- include_all: {fAll}",
       s!"- include_any: {fAny}",
       s!"- exclude: {fExc}"] ++
      (if mcfExcludes mcf s.target_chat_id then
        ["- Catatan: chat ini belum ada di WATCH_CHAT_IDS, perbarui env bila ingin dipantau."]
       else [])
    ⟨st', [String.intercalate "\n" summary_lines], [], []⟩
  else
    handlerFilters settings mcf st chat_id message

/-- The `!watch` start-command branch (`runner.py` lines 243-269): replace
any live session for this chat with a fresh one at step `label` and respond
with the onboarding text (plus a note when the target is outside the manual
allow-list), after a replacement notice when a session existed. -/
def handlerWatchStart (mcf : Option (List Int)) (st : RouterState)
    (chat_id target : Int) (message : Message)
    (hadSession : Bool) : HandlerOutput :=
  let s : PendingRuleSession :=
    { origin_chat_id := chat_id
      requested_by := message.sender_id.getD 0
      target_chat_id := target
      step := "label"
      label := none
      include_all := []
      include_any := []
      exclude := [] }
  let note :=
    if mcfExcludes mcf target then
      "\nCatatan: chat ini belum ada di WATCH_CHAT_IDS, perbarui variabel tersebut agar pesan ikut dipantau."
    else ""
  let onboarding :=
    s!"Mulai konfigurasi watcher untuk chat {target}.\n" ++
    "Langkah 1 dari 4 — kirim label rule (misal: Promo Gadget).\n" ++
    "Ketik \x60!cancel\x60 kapan saja untuk batal." ++ note
  ⟨{ st with pending_sessions := updateSessions st.pending_sessions chat_id (some s) },
   (if hadSession then ["Setup watcher sebelumnya digantikan dengan permintaan baru."] else []) ++
   [onboarding],
   [], []⟩

/-- The handler body after the text/emptiness guard (`runner.py` lines
222-411), in the source's precedence order: redirect-and-stop for outgoing
messages outside Saved Messages, cancel, start command, session steps, then
the filter/match section. -/
def handlerCore (settings : SettingsFlags) (mcf : Option (List Int))
    (st : RouterState) (chat_id : Int) (message : Message) : HandlerOutput :=
  let text := pyStrip message.text
  let session := st.pending_sessions chat_id
  let is_saved_messages := isSavedMessages chat_id message
  if message.out && !is_saved_messages then
    if (parseWatchCommand text).isSome then
      ⟨st, [], [watchRedirectNotice], []⟩
    else ⟨st, [], [], []⟩
  else if message.out && session.isSome && pyLower text = "!cancel" then
    ⟨{ st with pending_sessions := updateSessions st.pending_sessions chat_id none },
     ["Setup watcher dibatalkan."], [], []⟩
  else
    match (if message.out then parseWatchCommand text else none) with
    | some target => handlerWatchStart mcf st chat_id target message session.isSome
    | none =>
      match (if message.out then session else none) with
      | some s => handlerSessionStep settings mcf st chat_id text message s
      | none => handlerFilters settings mcf st chat_id message

/-- The full handler (`runner.py` lines 217-411): drop events without message
text, default a missing chat id to 0, then run the precedence chain. -/
def handler (settings : SettingsFlags) (mcf : Option (List Int))
    (st : RouterState) (event : Event) : HandlerOutput :=
  match event.message with
  | none => ⟨st, [], [], []⟩
  | some message =>
    if message.text = "" then ⟨st, [], [], []⟩
    else handlerCore settings mcf st (event.chat_id.getD 0) message

/-! ## Derived predicates and concrete instances used by the verification -/

/-- The rule well-formedness invariant of the spec: non-empty label and at
least one keyword across `include_all` and `include_any`. -/
def RuleWF (r : Rule) : Prop :=
  r.label ≠ "" ∧ (r.include_all ≠ [] ∨ r.include_any ≠ [])

/-- Invariant maintained for every live authoring session: once past the
`label` step the session carries a non-empty label, and at the `exclude`
step at least one keyword list is non-empty. -/
def SessionWF (s : PendingRuleSession) : Prop :=
  (s.step ≠ "label" → ∃ l, s.label = some l ∧ l ≠ "") ∧
  (s.step = "exclude" → s.include_all ≠ [] ∨ s.include_any ≠ [])

/-- All sessions held in a session map satisfy `SessionWF`. -/
def SessionsWF (m : Int → Option PendingRuleSession) : Prop :=
  ∀ c s, m c = some s → SessionWF s

/-- All sessions held in a router state satisfy `SessionWF`. -/
def StateSessionsWF (st : RouterState) : Prop :=
  SessionsWF st.pending_sessions

/-- Two rules that agree on all matching-relevant data: label, the three
keyword lists, and chat applicability (chat-id sets compared as sets). -/
def ruleEquiv (a b : Rule) : Prop :=
  a.label = b.label ∧ a.include_all = b.include_all ∧
  a.include_any = b.include_any ∧ a.exclude = b.exclude ∧
  ∀ cid, a.applies_to_chat cid = b.applies_to_chat cid

/-- Shape test: is the decoded top level an object or an array? -/
def Json.isObjOrArr : Json → Bool
  | .obj _ => true
  | .arr _ => true
  | _ => false

/-- An empty router state over a given rule set. -/
def mkState (rs : RuleSet) : RouterState :=
  ⟨fun _ => none, rs, save_rules rs.rules⟩

/-- An outgoing self-chat (Saved Messages) event in chat 777. -/
def evSelf (txt : String) : Event := ⟨some 777, some ⟨true, some 777, txt, 1, false⟩⟩

/-- Settings with both suppression flags enabled (their values are irrelevant
on the authoring paths exercised with them). -/
def flagsOn : SettingsFlags := ⟨true, true⟩

/-- Settings with both suppression flags disabled. -/
def flagsOff : SettingsFlags := ⟨false, false⟩

/-- One authoring exchange: feed one outgoing self-chat message through the
handler with no manual allow-list and keep the state. -/
def runStep (st : RouterState) (txt : String) : RouterState :=
  (handler flagsOn none st (evSelf txt)).state

/-- The state after the full authoring round-trip of claim C4: start a
session for target chat 42 from Saved Messages, then answer the four steps
with `Promo`, `buy now`, `-`, `-`. -/
def c4Final : RouterState :=
  runStep (runStep (runStep (runStep (runStep (mkState (RuleSet.ofRules [])) "!watch 42") "Promo") "buy now") "-") "-"

/-- The rule produced by the C4 round-trip. -/
def c4Rule : Rule := ⟨"Promo", ["buy now"], [], [], some [42]⟩

/-- An unscoped single-rule rule set matching the word `promo` anywhere. -/
def rsPromo : RuleSet := RuleSet.ofRules [⟨"Promo", [], ["promo"], [], none⟩]

/-- An outgoing message from sender 99 whose text matches `rsPromo` and is
not a start command. -/
def mC1 : Message := ⟨true, some 99, "hello promo", 7, false⟩

/-- The message `mC1` arriving in chat 10 (not the sender's self-chat). -/
def evC1 : Event := ⟨some 10, some mC1⟩

/-- A rule set with one rule scoped to chat 5 and one unscoped rule, both
keyed on the keyword `k`. -/
def rsScoped : RuleSet :=
  RuleSet.ofRules [⟨"S", ["k"], [], [], some [5]⟩, ⟨"G", ["k"], [], [], none⟩]

/-- An incoming (not outgoing) message whose text matches the `k` rules. -/
def mIn : Message := ⟨false, some 99, "k", 3, false⟩

/-- The message `mIn` arriving in chat 10, outside `rsScoped`'s cache. -/
def evIn10 : Event := ⟨some 10, some mIn⟩

/-- A mid-authoring session with accumulated fields, used to check that
cancellation discards them. -/
def sDirty : PendingRuleSession := ⟨777, 777, 99, "include_any", some "Old", ["x"], [], []⟩

/-- A router state holding `sDirty` for chat 777 over an empty rule set. -/
def stDirty : RouterState :=
  ⟨fun c => if c = 777 then some sDirty else none, RuleSet.ofRules [], save_rules []⟩

/-- A rule whose label is a single space: non-empty, hence valid for claim
C6 as stated, but blanked by the stripping in `load_rules`. -/
def c6BadRule : Rule := ⟨" ", ["k"], [], [], none⟩

/-- A session stuck at the `include_any` step with an empty `include_all`. -/
def sRefuse : PendingRuleSession := ⟨777, 777, 42, "include_any", some "Promo", [], [], []⟩

/-- A router state holding `sRefuse` for chat 777 over an empty rule set. -/
def stRefuse : RouterState :=
  ⟨fun c => if c = 777 then some sRefuse else none, RuleSet.ofRules [], save_rules []⟩

/-! ## Helper lemmas -/

/-- Membership in the result of `matchRules` is membership in the rule list
plus a true `ruleMatches` verdict. -/
theorem mem_matchRules {rs : RuleSet} {cid : Option Int} {text : String} {r : Rule} :
    r ∈ rs.matchRules cid text ↔ r ∈ rs.rules ∧ ruleMatches r cid (casefold text) = true := by
  simp [RuleSet.matchRules, List.mem_filter]

/-- A true `ruleMatches` verdict splits into chat applicability and the text
conditions. -/
theorem ruleMatches_true {r : Rule} {cid : Option Int} {n : String}
    (h : ruleMatches r cid n = true) :
    r.applies_to_chat cid = true ∧ ruleTextOk r n = true := by
  simpa [ruleMatches, Bool.and_eq_true] using h

/-- Conversely, the two components give a true verdict. -/
theorem ruleMatches_of_parts {r : Rule} {cid : Option Int} {n : String}
    (h1 : r.applies_to_chat cid = true) (h2 : ruleTextOk r n = true) :
    ruleMatches r cid n = true := by
  simp [ruleMatches, h1, h2]

/-- The text conditions cannot hold when some `exclude` keyword occurs in the
normalized text. -/
theorem ruleTextOk_exclude {r : Rule} {n : String} (h : ruleTextOk r n = true) {k : String}
    (hk : k ∈ r.exclude) (hc : strContains n (casefold k) = true) : False := by
  unfold ruleTextOk at h
  rcases (Bool.and_eq_true _ _).mp h with ⟨-, h3⟩
  have hany : r.exclude.any (fun k => strContains n (casefold k)) = true :=
    List.any_eq_true.mpr ⟨k, hk, hc⟩
  have hne : r.exclude.isEmpty = false := by
    cases hx : r.exclude with
    | nil => rw [hx] at hk; cases hk
    | cons a l => rfl
  rw [hne, hany] at h3
  simp at h3

/-! ## Claims -/

/-- C2: exclusion dominance — for every rule set, chat id, text and rule, if
some `exclude` keyword of the rule occurs case-insensitively in the text,
the rule is absent from `match`'s result, regardless of its `include_all`
and `include_any` fields. -/
theorem c2_exclusion_dominance (rs : RuleSet) (cid : Option Int) (text : String) (r : Rule)
    (h : ∃ k ∈ r.exclude, strContains (casefold text) (casefold k) = true) :
    r ∉ rs.matchRules cid text := by
  rcases h with ⟨k, hk, hc⟩
  intro hmem
  rcases mem_matchRules.mp hmem with ⟨-, hm⟩
  exact ruleTextOk_exclude (ruleMatches_true hm).2 hk hc

theorem c2_witness :
    (∃ k ∈ (Rule.mk "A" ["buy"] [] ["stop"] none).exclude,
      strContains (casefold "please STOP buying") (casefold k) = true) ∧
    (Rule.mk "A" ["buy"] [] ["stop"] none) ∉
      (RuleSet.ofRules [Rule.mk "A" ["buy"] [] ["stop"] none]).matchRules
        (some 1) "please STOP buying" :=
  ⟨⟨"stop", by decide, by decide⟩,
   c2_exclusion_dominance (RuleSet.ofRules [Rule.mk "A" ["buy"] [] ["stop"] none])
     (some 1) "please STOP buying" (Rule.mk "A" ["buy"] [] ["stop"] none)
     ⟨"stop", by decide, by decide⟩⟩

/-- C3: chat scoping — a rule scoped to `{5}` never appears in `match` for a
non-null chat id other than 5; it does appear at chat id 5 when it is in the
set and its keyword conditions hold; and a null chat id always satisfies the
scoping check. -/
theorem c3_chat_scoping (rs : RuleSet) (text : String) (r : Rule)
    (h5 : r.chat_ids = some [5]) :
    (∀ cid : Int, cid ≠ 5 → r ∉ rs.matchRules (some cid) text) ∧
    (r ∈ rs.rules → ruleTextOk r (casefold text) = true → r ∈ rs.matchRules (some 5) text) ∧
    (∀ r' : Rule, r'.applies_to_chat none = true) := by
  refine ⟨?_, ?_, fun r' => by simp [Rule.applies_to_chat]⟩
  · intro cid hne hmem
    rcases mem_matchRules.mp hmem with ⟨-, hm⟩
    have happ := (ruleMatches_true hm).1
    simp [Rule.applies_to_chat, h5] at happ
    exact hne happ
  · intro hmem htext
    refine mem_matchRules.mpr ⟨hmem, ruleMatches_of_parts ?_ htext⟩
    simp [Rule.applies_to_chat, h5]

theorem c3_witness :
    ((Rule.mk "S" ["ping"] [] [] (some [5])) ∉
      (RuleSet.ofRules [Rule.mk "S" ["ping"] [] [] (some [5])]).matchRules (some 6) "ping") ∧
    ((Rule.mk "S" ["ping"] [] [] (some [5])) ∈
      (RuleSet.ofRules [Rule.mk "S" ["ping"] [] [] (some [5])]).matchRules (some 5) "ping") ∧
    (Rule.mk "S" ["ping"] [] [] (some [5])).applies_to_chat none = true :=
  ⟨(c3_chat_scoping (RuleSet.ofRules [Rule.mk "S" ["ping"] [] [] (some [5])]) "ping"
      (Rule.mk "S" ["ping"] [] [] (some [5])) rfl).1 6 (by decide),
   (c3_chat_scoping (RuleSet.ofRules [Rule.mk "S" ["ping"] [] [] (some [5])]) "ping"
      (Rule.mk "S" ["ping"] [] [] (some [5])) rfl).2.1 (by decide) (by decide),
   (c3_chat_scoping (RuleSet.ofRules [Rule.mk "S" ["ping"] [] [] (some [5])]) "ping"
      (Rule.mk "S" ["ping"] [] [] (some [5])) rfl).2.2 _⟩

/-- C7: keyword-list parsing — the parser trims its input, returns `[]` on a
blank or sentinel (`-`/`skip`/`none`, case-insensitive) input, and otherwise
splits the trimmed input on runs of comma, semicolon or newline, trims each
part and drops empties, preserving order and duplicates; in particular
`"a, b;c\nd"` parses to `["a","b","c","d"]` and `"-"` parses to `[]`. -/
theorem c7_parse_keywords :
    (∀ s : String, pyStrip s = "" → _parse_keywords s = []) ∧
    (∀ s : String,
      (pyLower (pyStrip s) = "-" ∨ pyLower (pyStrip s) = "skip" ∨ pyLower (pyStrip s) = "none") →
      _parse_keywords s = []) ∧
    (∀ s : String, pyStrip s ≠ "" →
      ¬(pyLower (pyStrip s) = "-" ∨ pyLower (pyStrip s) = "skip" ∨ pyLower (pyStrip s) = "none") →
      _parse_keywords s = ((splitRuns (pyStrip s)).map pyStrip).filter (fun p => p ≠ "")) ∧
    _parse_keywords "a, b;c\nd" = ["a", "b", "c", "d"] ∧
    _parse_keywords "-" = [] ∧
    _parse_keywords "x, x" = ["x", "x"] := by
  refine ⟨?_, ?_, ?_, by decide, by decide, by decide⟩
  · intro s h
    simp [_parse_keywords, h]
  · intro s h
    by_cases he : pyStrip s = ""
    · simp [_parse_keywords, he]
    · simp only [_parse_keywords]
      rw [if_neg he, if_pos h]
  · intro s h1 h2
    simp only [_parse_keywords]
    rw [if_neg h1, if_neg h2]

theorem c7_witness :
    _parse_keywords "   " = [] ∧
    _parse_keywords " SKIP " = [] ∧
    _parse_keywords "a, b;c\nd" =
      ((splitRuns (pyStrip "a, b;c\nd")).map pyStrip).filter (fun p => p ≠ "") :=
  ⟨c7_parse_keywords.1 "   " (by decide),
   c7_parse_keywords.2.1 " SKIP " (Or.inr (Or.inl (by decide))),
   c7_parse_keywords.2.2.1 "a, b;c\nd" (by decide) (by decide)⟩

/-- C1 counterexample: an outgoing event from a non-self chat whose text is
not a start command, with suppression flags disabled, no manual allow-list,
an empty chat-scope cache, and a rule matching the text — the claim requires
one record per matched rule, but the handler emits none: the redirect step
stops every outgoing non-self event, not only start-command-looking ones. -/
theorem c1_counterexample :
    evC1.message = some mC1 ∧
    mC1.out = true ∧
    isSavedMessages (evC1.chat_id.getD 0) mC1 = false ∧
    parseWatchCommand (pyStrip mC1.text) = none ∧
    flagsOff.ignore_self_messages = false ∧
    (mkState rsPromo).rule_set.chatIds = none ∧
    rsPromo.matchRules (some 10) mC1.text ≠ [] ∧
    (handler flagsOff none (mkState rsPromo) evC1).records = [] := by decide

/-- C1 (amended): every outgoing event from a chat other than the owner's
self-conversation stops at the redirect step regardless of its text — the
state is unchanged, no records are handed to the sink, nothing is sent to
the origin chat, and the redirect notice goes to the self-chat exactly when
the text looks like a start command. -/
theorem c1_amended (settings : SettingsFlags) (mcf : Option (List Int))
    (st : RouterState) (ev : Event) (m : Message)
    (hm : ev.message = some m) (ht : m.text ≠ "") (hout : m.out = true)
    (hsaved : isSavedMessages (ev.chat_id.getD 0) m = false) :
    (handler settings mcf st ev).state = st ∧
    (handler settings mcf st ev).records = [] ∧
    (handler settings mcf st ev).responses = [] ∧
    (handler settings mcf st ev).sent_to_me =
      (if (parseWatchCommand (pyStrip m.text)).isSome then [watchRedirectNotice] else []) := by
  by_cases hw : (parseWatchCommand (pyStrip m.text)).isSome
  · simp [handler, handlerCore, hm, ht, hout, hsaved, hw]
  · simp [handler, handlerCore, hm, ht, hout, hsaved, hw]

theorem c1_witness :
    (handler flagsOff none (mkState rsPromo) evC1).state = mkState rsPromo ∧
    (handler flagsOff none (mkState rsPromo) evC1).records = [] ∧
    (handler flagsOff none (mkState rsPromo) evC1).responses = [] ∧
    (handler flagsOff none (mkState rsPromo) evC1).sent_to_me =
      (if (parseWatchCommand (pyStrip mC1.text)).isSome then [watchRedirectNotice] else []) :=
  c1_amended flagsOff none (mkState rsPromo) evC1 mC1 rfl (by decide) (by decide) (by decide)

/-- C4: the authoring round-trip — starting a session for target chat 42
from Saved Messages and answering the four steps with `Promo`, `buy now`,
`-`, `-` persists exactly the rule
`{label Promo, include_all [buy now], include_any [], exclude [],
chats {42}}` (both in the active rule set and in the rules file) and
destroys the session. -/
theorem c4_authoring_round_trip :
    c4Final.rule_set.rules = [c4Rule] ∧
    c4Final.rules_file = save_rules [c4Rule] ∧
    c4Final.pending_sessions 777 = none :=
  ⟨by decide, rfl, rfl⟩

/-- C8: cancellation atomicity — at any step, an owner-sent `!cancel` in the
origin chat destroys that session with an acknowledgement, leaves every
other session, the in-memory rule set and the rules file unchanged, and
persists nothing; and a subsequent start command in the same chat installs a
session with all fields at their fresh defaults. -/
theorem c8_cancel_atomicity :
    (∀ (settings : SettingsFlags) (mcf : Option (List Int)) (st : RouterState)
        (ev : Event) (m : Message) (s : PendingRuleSession),
      ev.message = some m → m.text ≠ "" → m.out = true →
      isSavedMessages (ev.chat_id.getD 0) m = true →
      st.pending_sessions (ev.chat_id.getD 0) = some s →
      pyLower (pyStrip m.text) = "!cancel" →
      (handler settings mcf st ev).state.pending_sessions (ev.chat_id.getD 0) = none ∧
      (∀ c, c ≠ ev.chat_id.getD 0 →
        (handler settings mcf st ev).state.pending_sessions c = st.pending_sessions c) ∧
      (handler settings mcf st ev).state.rule_set = st.rule_set ∧
      (handler settings mcf st ev).state.rules_file = st.rules_file ∧
      (handler settings mcf st ev).responses = ["Setup watcher dibatalkan."] ∧
      (handler settings mcf st ev).records = []) ∧
    (∀ (settings : SettingsFlags) (mcf : Option (List Int)) (st : RouterState)
        (ev : Event) (m : Message) (n : Int),
      ev.message = some m → m.text ≠ "" → m.out = true →
      isSavedMessages (ev.chat_id.getD 0) m = true →
      parseWatchCommand (pyStrip m.text) = some n →
      pyLower (pyStrip m.text) ≠ "!cancel" →
      (handler settings mcf st ev).state.pending_sessions (ev.chat_id.getD 0) =
        some ⟨ev.chat_id.getD 0, m.sender_id.getD 0, n, "label", none, [], [], []⟩) := by
  constructor
  · intro settings mcf st ev m s hm ht hout hsaved hsess hcancel
    simp [handler, handlerCore, hm, ht, hout, hsaved, hsess, hcancel, updateSessions]
    intro c hc
    exact fun h => absurd h hc
  · intro settings mcf st ev m n hm ht hout hsaved hwatch hnc
    simp [handler, handlerCore, hm, ht, hout, hsaved, hwatch, hnc,
      handlerWatchStart, updateSessions]

theorem c8_witness :
    ((handler flagsOn none stDirty (evSelf "!cancel")).state.pending_sessions 777 = none ∧
     (handler flagsOn none stDirty (evSelf "!cancel")).state.rule_set = stDirty.rule_set ∧
     (handler flagsOn none stDirty (evSelf "!cancel")).state.rules_file = stDirty.rules_file ∧
     (handler flagsOn none stDirty (evSelf "!cancel")).responses = ["Setup watcher dibatalkan."] ∧
     (handler flagsOn none stDirty (evSelf "!cancel")).records = []) ∧
    (handler flagsOn none (handler flagsOn none stDirty (evSelf "!cancel")).state
        (evSelf "!watch 42")).state.pending_sessions 777 =
      some ⟨777, 777, 42, "label", none, [], [], []⟩ :=
  ⟨(fun h => ⟨h.1, h.2.2.1, h.2.2.2.1, h.2.2.2.2.1, h.2.2.2.2.2⟩)
     (c8_cancel_atomicity.1 flagsOn none stDirty (evSelf "!cancel") ⟨true, some 777, "!cancel", 1, false⟩
       sDirty rfl (by decide) rfl (by decide) rfl (by decide)),
   c8_cancel_atomicity.2 flagsOn none
     (handler flagsOn none stDirty (evSelf "!cancel")).state (evSelf "!watch 42")
     ⟨true, some 777, "!watch 42", 1, false⟩ 42 rfl (by decide) rfl (by decide)
     (by decide) (by decide)⟩

/-- Accumulating the chat cache over rules that declare no (truthy) chat
scope leaves the accumulator unchanged. -/
theorem cacheFold_id (rules : List Rule) (acc : List Int)
    (h : ∀ r ∈ rules, r.chat_ids = none ∨ r.chat_ids = some []) :
    rules.foldl cacheStep acc = acc := by
  induction rules generalizing acc with
  | nil => rfl
  | cons r rest ih =>
    have hr := h r (List.mem_cons_self _ _)
    have hstep : cacheStep acc r = acc := by
      rcases hr with hr | hr <;> simp [cacheStep, hr]
    simp only [List.foldl_cons, hstep]
    exact ih acc (fun x hx => h x (List.mem_cons_of_mem _ hx))

/-- C10: implicit cache shadowing — whenever the derived chat-scope cache is
non-empty, the router drops every inbound non-session event whose chat id is
outside the cache before matching ever runs (no records, state untouched),
so even an unscoped rule produces nothing for such chats; and when no rule
declares a chat scope the cache accessor yields `none`, skipping the
filter. -/
theorem c10_cache_shadowing :
    (∀ (settings : SettingsFlags) (mcf : Option (List Int)) (st : RouterState)
        (ev : Event) (m : Message) (cache : List Int),
      ev.message = some m → m.text ≠ "" → m.out = false →
      st.rule_set.chatIds = some cache → ¬((ev.chat_id.getD 0) ∈ cache) →
      (handler settings mcf st ev).records = [] ∧
      (handler settings mcf st ev).state = st) ∧
    (∀ rules : List Rule,
      (∀ r ∈ rules, r.chat_ids = none ∨ r.chat_ids = some []) →
      (RuleSet.ofRules rules).chatIds = none) := by
  constructor
  · intro settings mcf st ev m cache hm ht hout hcache hnot
    by_cases hmcf : mcfExcludes mcf (ev.chat_id.getD 0) = true
    · simp [handler, handlerCore, hm, ht, hout, handlerFilters, hmcf]
    · simp [handler, handlerCore, hm, ht, hout, handlerFilters, hmcf, hcache, hnot]
  · intro rules h
    simp [RuleSet.chatIds, RuleSet.ofRules, rebuildChatCache, cacheFold_id rules [] h]

theorem c10_witness :
    ((handler flagsOff none (mkState rsScoped) evIn10).records = [] ∧
     (handler flagsOff none (mkState rsScoped) evIn10).state = mkState rsScoped) ∧
    (RuleSet.ofRules [⟨"G", ["k"], [], [], none⟩]).chatIds = none :=
  ⟨c10_cache_shadowing.1 flagsOff none (mkState rsScoped) evIn10 mIn [5]
     rfl (by decide) rfl (by decide) (by decide),
   c10_cache_shadowing.2 [⟨"G", ["k"], [], [], none⟩] (by decide)⟩

/-- C9 counterexample: the claim requires the missing-label failure message
to name the offending rule, but `load_rules` raises one fixed message for
every label-less rule — two rule files whose only label-less rules differ
(keyword `alpha` versus keyword `beta`) produce the identical message, so
the message names neither. -/
theorem c9_counterexample :
    load_rules (.parsed (.arr [.obj [("include_all", .str "alpha")]])) =
      .error "Setiap rule wajib memiliki field \x27label\x27." ∧
    load_rules (.parsed (.arr [.obj [("include_any", .str "beta")]])) =
      .error "Setiap rule wajib memiliki field \x27label\x27." ∧
    ("alpha" : String) ≠ "beta" :=
  ⟨rfl, rfl, by decide⟩

/-- C9 (amended): `load` returns an empty `RuleSet` for a missing or blank
file; malformed JSON and a top level that is neither an object nor an array
are hard failures, as is an object whose truthy `rules` field is not a list;
a chat-id parse failure is a fatal error whose message names the offending
rule by its label; a missing label is a fatal error with a fixed generic
message that names no rule. -/
theorem c9_load_errors :
    load_rules .missing = .ok (RuleSet.ofRules []) ∧
    load_rules .blank = .ok (RuleSet.ofRules []) ∧
    load_rules .malformed = .error "Rules file tidak valid. Periksa format JSON." ∧
    (∀ j : Json, j.isObjOrArr = false →
      load_rules (.parsed j) =
        .error "Rules file harus berupa objek dengan field \x27rules\x27 atau list.") ∧
    load_rules (.parsed (.obj [("rules", .str "x")])) =
      .error "Field \x27rules\x27 harus berupa list." ∧
    (load_rules (.parsed (.arr [.obj [("label", .str "Promo"), ("include_all", .str "k"),
        ("chats", .arr [.str "abc"])]])) =
      .error "Invalid chat id \x27abc\x27 for rule \x27Promo\x27." ∧
     strContains "Invalid chat id \x27abc\x27 for rule \x27Promo\x27." "Promo" = true) ∧
    (load_rules (.parsed (.arr [.obj [("include_all", .str "alpha")]])) =
      .error "Setiap rule wajib memiliki field \x27label\x27." ∧
     load_rules (.parsed (.arr [.obj [("include_any", .str "beta")]])) =
      .error "Setiap rule wajib memiliki field \x27label\x27.") := by
  refine ⟨rfl, rfl, rfl, ?_, rfl, ⟨rfl, by decide⟩, rfl, rfl⟩
  intro j hj
  cases j with
  | null => rfl
  | bool b => rfl
  | int n => rfl
  | str s => rfl
  | arr l => simp [Json.isObjOrArr] at hj
  | obj l => simp [Json.isObjOrArr] at hj

theorem c9_witness :
    load_rules (.parsed (.int 3)) =
      .error "Rules file harus berupa objek dengan field \x27rules\x27 atau list." :=
  c9_load_errors.2.2.2.1 (.int 3) rfl

/-- A successfully parsed raw rule satisfies the well-formedness invariant:
the label guard and the keyword-count guard both sit on the success path. -/
theorem parseRawRule_wf {raw : Json} {r : Rule} (h : parseRawRule raw = .ok r) :
    RuleWF r := by
  match raw with
  | .null | .bool _ | .int _ | .str _ | .arr _ => exact Except.noConfusion h
  | .obj fields =>
    simp only [parseRawRule] at h
    split at h
    · exact Except.noConfusion h
    · split at h
      · exact Except.noConfusion h
      · split at h
        · exact Except.noConfusion h
        · split at h
          · exact Except.noConfusion h
          · split at h
            · exact Except.noConfusion h
            · split at h
              · exact Except.noConfusion h
              · cases h
                exact ⟨by assumption, not_and_or.mp (by assumption)⟩

/-- Every rule delivered by the `load_rules` loop is well-formed. -/
theorem parseRawRules_wf {l : List Json} {rules : List Rule}
    (h : parseRawRules l = .ok rules) : ∀ r ∈ rules, RuleWF r := by
  induction l generalizing rules with
  | nil =>
    simp only [parseRawRules] at h
    cases h
    intro r hr
    cases hr
  | cons raw rest ih =>
    simp only [parseRawRules] at h
    cases h0 : parseRawRule raw with
    | error e =>
      rw [h0] at h
      exact Except.noConfusion h
    | ok r0 =>
      rw [h0] at h
      cases h1 : parseRawRules rest with
      | error e =>
        rw [h1] at h
        exact Except.noConfusion h
      | ok rs0 =>
        rw [h1] at h
        cases h
        intro r hr
        rcases List.mem_cons.mp hr with rfl | hr
        · exact parseRawRule_wf h0
        · exact ih h1 r hr

/-- Every rule in a successfully loaded `RuleSet` is well-formed. -/
theorem load_rules_wf {fs : FileState} {rs : RuleSet} (h : load_rules fs = .ok rs) :
    ∀ r ∈ rs.rules, RuleWF r := by
  match fs with
  | .missing =>
    cases h
    intro r hr
    cases hr
  | .blank =>
    cases h
    intro r hr
    cases hr
  | .malformed => exact Except.noConfusion h
  | .parsed data =>
    match data with
    | .null | .bool _ | .int _ | .str _ => exact Except.noConfusion h
    | .arr l =>
      simp only [load_rules] at h
      cases h1 : parseRawRules l with
      | error e =>
        rw [h1] at h
        exact Except.noConfusion h
      | ok rules =>
        rw [h1] at h
        cases h
        exact parseRawRules_wf h1
    | .obj fields =>
      simp only [load_rules] at h
      cases hj : pyOrJ (jget fields "rules") (Json.arr []) with
      | arr l =>
        rw [hj] at h
        dsimp only at h
        cases h1 : parseRawRules l with
        | error e =>
          rw [h1] at h
          exact Except.noConfusion h
        | ok rules =>
          rw [h1] at h
          cases h
          exact parseRawRules_wf h1
      | null =>
        rw [hj] at h
        exact Except.noConfusion h
      | bool b =>
        rw [hj] at h
        exact Except.noConfusion h
      | int n =>
        rw [hj] at h
        exact Except.noConfusion h
      | str s =>
        rw [hj] at h
        exact Except.noConfusion h
      | obj o =>
        rw [hj] at h
        exact Except.noConfusion h

/-- The filter/match section of the handler never changes the router state. -/
theorem handlerFilters_state (settings : SettingsFlags) (mcf : Option (List Int))
    (st : RouterState) (chat_id : Int) (m : Message) :
    (handlerFilters settings mcf st chat_id m).state = st := by
  simp only [handlerFilters]
  repeat' split <;> try rfl

/-- Updating one key of a well-formed session map with a well-formed value
(or removing it) keeps the map well-formed. -/
theorem SessionsWF.update {m : Int → Option PendingRuleSession} (h : SessionsWF m)
    {c : Int} {v : Option PendingRuleSession}
    (hv : ∀ s, v = some s → SessionWF s) : SessionsWF (updateSessions m c v) := by
  intro c' s' hc
  unfold updateSessions at hc
  by_cases hcc : c' = c
  · rw [if_pos hcc] at hc
    exact hv s' hc
  · rw [if_neg hcc] at hc
    exact h c' s' hc

/-- The authoring-step section preserves session well-formedness, and any
rule it appends to the active set is well-formed. -/
theorem handlerSessionStep_wf (settings : SettingsFlags) (mcf : Option (List Int))
    (st : RouterState) (chat_id : Int) (text : String) (m : Message)
    (s : PendingRuleSession) (hwf : StateSessionsWF st) (hs : SessionWF s) :
    StateSessionsWF (handlerSessionStep settings mcf st chat_id text m s).state ∧
    (∀ r ∈ (handlerSessionStep settings mcf st chat_id text m s).state.rule_set.rules,
      r ∈ st.rule_set.rules ∨ RuleWF r) := by
  unfold handlerSessionStep
  by_cases h1 : s.step = "label"
  · rw [if_pos h1]
    by_cases h2 : text = ""
    · rw [if_pos h2]
      exact ⟨hwf, fun r hr => Or.inl hr⟩
    · rw [if_neg h2]
      refine ⟨SessionsWF.update hwf ?_, fun r hr => Or.inl hr⟩
      rintro s' hs'
      cases hs'
      exact ⟨fun _ => ⟨text, rfl, h2⟩,
        fun hx => False.elim ((by decide : (("include_all" : String) = "exclude") → False) hx)⟩
  · rw [if_neg h1]
    by_cases h2 : s.step = "include_all"
    · rw [if_pos h2]
      refine ⟨SessionsWF.update hwf ?_, fun r hr => Or.inl hr⟩
      rintro s' hs'
      cases hs'
      obtain ⟨l, hl, hlne⟩ := hs.1 (by rw [h2]; decide)
      exact ⟨fun _ => ⟨l, hl, hlne⟩,
        fun hx => False.elim ((by decide : (("include_any" : String) = "exclude") → False) hx)⟩
    · rw [if_neg h2]
      by_cases h3 : s.step = "include_any"
      · rw [if_pos h3]
        dsimp only
        by_cases h4 : _parse_keywords text = [] ∧ s.include_all = []
        · rw [if_pos h4]
          exact ⟨hwf, fun r hr => Or.inl hr⟩
        · rw [if_neg h4]
          refine ⟨SessionsWF.update hwf ?_, fun r hr => Or.inl hr⟩
          rintro s' hs'
          cases hs'
          obtain ⟨l, hl, hlne⟩ := hs.1 (by rw [h3]; decide)
          refine ⟨fun _ => ⟨l, hl, hlne⟩, fun _ => ?_⟩
          rcases not_and_or.mp h4 with h | h
          · exact Or.inr h
          · exact Or.inl h
      · rw [if_neg h3]
        by_cases h5 : s.step = "exclude"
        · rw [if_pos h5]
          dsimp only
          constructor
          · exact SessionsWF.update hwf (fun s' hs' => Option.noConfusion hs')
          · intro r hr
            rcases List.mem_append.mp hr with hr | hr
            · exact Or.inl hr
            · rcases List.mem_singleton.mp hr with rfl
              obtain ⟨l, hl, hlne⟩ := hs.1 (by rw [h5]; decide)
              refine Or.inr ⟨?_, hs.2 h5⟩
              simpa [hl] using hlne
        · rw [if_neg h5]
          rw [handlerFilters_state]
          exact ⟨hwf, fun r hr => Or.inl hr⟩

/-- The handler preserves session well-formedness and only ever appends
well-formed rules to the active rule set. -/
theorem handler_wf (settings : SettingsFlags) (mcf : Option (List Int))
    (st : RouterState) (ev : Event) (hwf : StateSessionsWF st) :
    StateSessionsWF (handler settings mcf st ev).state ∧
    (∀ r ∈ (handler settings mcf st ev).state.rule_set.rules,
      r ∈ st.rule_set.rules ∨ RuleWF r) := by
  obtain ⟨cid, msg⟩ := ev
  cases msg with
  | none => exact ⟨hwf, fun r hr => Or.inl hr⟩
  | some m =>
    by_cases ht : m.text = ""
    · dsimp only [handler]
      rw [if_pos ht]
      exact ⟨hwf, fun r hr => Or.inl hr⟩
    · dsimp only [handler]
      rw [if_neg ht]
      unfold handlerCore
      dsimp only
      by_cases hb1 : (m.out && !isSavedMessages (cid.getD 0) m) = true
      · rw [if_pos hb1]
        split
        · exact ⟨hwf, fun r hr => Or.inl hr⟩
        · exact ⟨hwf, fun r hr => Or.inl hr⟩
      · rw [if_neg hb1]
        by_cases hb2 : (m.out && (st.pending_sessions (cid.getD 0)).isSome &&
            (pyLower (pyStrip m.text) = "!cancel" : Bool)) = true
        · rw [if_pos hb2]
          exact ⟨SessionsWF.update hwf (fun s' hs' => Option.noConfusion hs'),
            fun r hr => Or.inl hr⟩
        · rw [if_neg hb2]
          cases hpw : (if m.out then parseWatchCommand (pyStrip m.text) else none) with
          | some target =>
            unfold handlerWatchStart
            dsimp only
            refine ⟨SessionsWF.update hwf ?_, fun r hr => Or.inl hr⟩
            rintro s' hs'
            cases hs'
            exact ⟨fun hx => absurd rfl hx,
              fun hx => False.elim ((by decide : (("label" : String) = "exclude") → False) hx)⟩
          | none =>
            cases hses : (if m.out then st.pending_sessions (cid.getD 0)
                else none) with
            | some s =>
              have hsw : SessionWF s := by
                by_cases hout : m.out = true
                · rw [if_pos hout] at hses
                  exact hwf _ _ hses
                · rw [if_neg hout] at hses
                  exact Option.noConfusion hses
              exact handlerSessionStep_wf settings mcf st (cid.getD 0)
                (pyStrip m.text) m s hwf hsw
            | none =>
              rw [handlerFilters_state]
              exact ⟨hwf, fun r hr => Or.inl hr⟩

/-- C5: rule well-formedness invariant — every rule in a successfully loaded
rule set has a non-empty label and at least one keyword across `include_all`
and `include_any`; `load` raises for a rule violating this (a keyword-less
rule and a label-less rule shown concretely); the `include_any` authoring
step refuses to advance while both keyword lists would be empty (the state
is unchanged and nothing is persisted); and the handler preserves session
well-formedness and only ever appends well-formed rules to the active rule
set. -/
theorem c5_wellformedness :
    (∀ (fs : FileState) (rs : RuleSet), load_rules fs = .ok rs →
      ∀ r ∈ rs.rules, RuleWF r) ∧
    (load_rules (.parsed (.arr [.obj [("label", .str "L")]])) =
      .error "Rule \x27L\x27 perlu setidaknya satu keyword via \x27include_all\x27 atau \x27include_any\x27." ∧
     load_rules (.parsed (.arr [.obj [("include_all", .str "k")]])) =
      .error "Setiap rule wajib memiliki field \x27label\x27.") ∧
    (∀ (settings : SettingsFlags) (mcf : Option (List Int)) (st : RouterState)
        (ev : Event) (m : Message) (s : PendingRuleSession),
      ev.message = some m → m.text ≠ "" → m.out = true →
      isSavedMessages (ev.chat_id.getD 0) m = true →
      st.pending_sessions (ev.chat_id.getD 0) = some s →
      pyLower (pyStrip m.text) ≠ "!cancel" →
      parseWatchCommand (pyStrip m.text) = none →
      s.step = "include_any" → s.include_all = [] →
      _parse_keywords (pyStrip m.text) = [] →
      (handler settings mcf st ev).state = st ∧
      (handler settings mcf st ev).records = []) ∧
    (∀ (settings : SettingsFlags) (mcf : Option (List Int)) (st : RouterState) (ev : Event),
      StateSessionsWF st →
      StateSessionsWF (handler settings mcf st ev).state ∧
      (∀ r ∈ (handler settings mcf st ev).state.rule_set.rules,
        r ∈ st.rule_set.rules ∨ RuleWF r)) := by
  refine ⟨fun fs rs h => load_rules_wf h, ⟨rfl, rfl⟩, ?_,
    fun settings mcf st ev hwf => handler_wf settings mcf st ev hwf⟩
  intro settings mcf st ev m s hm ht hout hsaved hsess hnc hnw hstep hinc hparse
  obtain ⟨cid, msg⟩ := ev
  cases hm
  dsimp only [handler]
  rw [if_neg ht]
  unfold handlerCore
  dsimp only
  by_cases hb1 : (m.out && !isSavedMessages (cid.getD 0) m) = true
  · rw [hout, hsaved] at hb1
    simp at hb1
  · rw [if_neg hb1]
    by_cases hb2 : (m.out && (st.pending_sessions (cid.getD 0)).isSome &&
        (pyLower (pyStrip m.text) = "!cancel" : Bool)) = true
    · simp [hnc] at hb2
    · rw [if_neg hb2]
      have hscrut1 : (if m.out then parseWatchCommand (pyStrip m.text) else none) = none := by
        simp [hout, hnw]
      rw [hscrut1]
      have hscrut2 : (if m.out then st.pending_sessions (cid.getD 0) else none) = some s := by
        simp [hout, hsess]
      rw [hscrut2]
      dsimp only
      unfold handlerSessionStep
      rw [if_neg (show ¬(s.step = "label") by rw [hstep]; decide)]
      rw [if_neg (show ¬(s.step = "include_all") by rw [hstep]; decide)]
      rw [if_pos hstep]
      dsimp only
      rw [if_pos ⟨hparse, hinc⟩]
      exact ⟨rfl, rfl⟩

theorem c5_witness :
    (handler flagsOn none stRefuse (evSelf "-")).state = stRefuse ∧
    (handler flagsOn none stRefuse (evSelf "-")).records = [] :=
  c5_wellformedness.2.2.1 flagsOn none stRefuse (evSelf "-")
    ⟨true, some 777, "-", 1, false⟩ sRefuse rfl (by decide) rfl (by decide) rfl
    (by decide) (by decide) rfl rfl (by decide)

/-- Membership in `setAdd`. -/
theorem mem_setAdd {s : List Int} {y x : Int} : x ∈ setAdd s y ↔ x ∈ s ∨ x = y := by
  unfold setAdd
  split
  · rename_i hy
    constructor
    · exact Or.inl
    · rintro (h | rfl)
      · exact h
      · exact hy
  · simp [List.mem_append]

/-- Membership in a `setAdd` fold. -/
theorem mem_foldl_setAdd (l : List Int) (acc : List Int) (x : Int) :
    x ∈ l.foldl setAdd acc ↔ x ∈ acc ∨ x ∈ l := by
  induction l generalizing acc with
  | nil => simp
  | cons y ys ih =>
    rw [List.foldl_cons, ih, mem_setAdd]
    simp [List.mem_cons]
    tauto

/-- Membership in a sorted insertion. -/
theorem mem_insSorted {y x : Int} : ∀ {l : List Int}, x ∈ insSorted y l ↔ x = y ∨ x ∈ l := by
  intro l
  induction l with
  | nil => simp [insSorted]
  | cons a t ih =>
    unfold insSorted
    split
    · simp [List.mem_cons]
    · simp [List.mem_cons, ih]
      tauto

/-- `sortInts` preserves membership. -/
theorem mem_sortInts {l : List Int} {x : Int} : x ∈ sortInts l ↔ x ∈ l := by
  unfold sortInts
  induction l with
  | nil => simp
  | cons a t ih =>
    rw [List.foldr_cons, mem_insSorted, ih]
    simp [List.mem_cons]

/-- `sortedSet` (Python `sorted` of a set) preserves membership. -/
theorem mem_sortedSet {l : List Int} {x : Int} : x ∈ sortedSet l ↔ x ∈ l := by
  unfold sortedSet
  rw [mem_sortInts, List.mem_dedup]

/-- Rendering a saved string entry with `pyStr` is the identity. -/
theorem pyStr_str (s : String) : pyStr (Json.str s) = s := rfl

/-- Mapping `pyStr` back over saved string entries is the identity. -/
theorem map_pyStr_str (l : List String) : l.map (pyStr ∘ Json.str) = l := by
  induction l with
  | nil => rfl
  | cons a t ih => simp [ih, pyStr, Function.comp]

/-- `_parse_chat_ids`'s loop on saved integer entries is the `setAdd` fold. -/
theorem parseChatIdItems_ints (label : String) (l : List Int) (acc : List Int) :
    parseChatIdItems label (l.map Json.int) acc = .ok (l.foldl setAdd acc) := by
  induction l generalizing acc with
  | nil => rfl
  | cons y ys ih => simp [parseChatIdItems, pyInt, ih, List.foldl_cons]

/-- `ruleMatches` only depends on matching-relevant rule data. -/
theorem ruleMatches_congr {a b : Rule} (h : ruleEquiv a b) (cid : Option Int) (n : String) :
    ruleMatches a cid n = ruleMatches b cid n := by
  rcases h with ⟨h1, h2, h3, h4, h5⟩
  unfold ruleMatches ruleTextOk
  rw [h2, h3, h4, h5 cid]

/-- Filtering two pointwise match-equivalent rule lists yields the same
labels in the same order. -/
theorem filter_labels_congr {l l' : List Rule} (h : List.Forall₂ ruleEquiv l l')
    (cid : Option Int) (n : String) :
    ((l.filter (fun r => ruleMatches r cid n)).map Rule.label) =
    ((l'.filter (fun r => ruleMatches r cid n)).map Rule.label) := by
  induction h with
  | nil => rfl
  | @cons a b as bs hab hrest ih =>
    simp only [List.filter_cons]
    rw [ruleMatches_congr hab cid n]
    by_cases hm : ruleMatches b cid n = true
    · simp [hm, ih, hab.1]
    · simp [hm, ih]

/-- Parsing a saved rule back yields a rule equivalent to the original,
provided the original is valid (non-empty stripped label, at least one
include keyword, chat scope absent or non-empty). -/
theorem parseRawRule_roundTrip (r : Rule)
    (hlab : r.label ≠ "") (hstrip : pyStrip r.label = r.label)
    (hkw : r.include_all ≠ [] ∨ r.include_any ≠ [])
    (hch : r.chat_ids ≠ some []) :
    ∃ r' : Rule, parseRawRule (ruleToJson r) = .ok r' ∧ ruleEquiv r' r := by
  obtain ⟨lab, ia, iy, ex, ch⟩ := r
  dsimp only at hlab hstrip hkw hch
  cases ch with
  | none =>
    refine ⟨⟨lab, ia, iy, ex, none⟩, ?_, rfl, rfl, rfl, rfl, fun _ => rfl⟩
    simp only [ruleToJson]
    try dsimp only
    simp only [List.cons_append, List.nil_append, List.append_nil]
    simp only [parseRawRule]
    rw [show jget [("label", Json.str lab), ("include_all", Json.arr (ia.map Json.str)),
        ("include_any", Json.arr (iy.map Json.str)), ("exclude", Json.arr (ex.map Json.str))]
        "label" = some (Json.str lab) from rfl]
    rw [show jget [("label", Json.str lab), ("include_all", Json.arr (ia.map Json.str)),
        ("include_any", Json.arr (iy.map Json.str)), ("exclude", Json.arr (ex.map Json.str))]
        "name" = none from rfl]
    rw [show jget [("label", Json.str lab), ("include_all", Json.arr (ia.map Json.str)),
        ("include_any", Json.arr (iy.map Json.str)), ("exclude", Json.arr (ex.map Json.str))]
        "include_all" = some (Json.arr (ia.map Json.str)) from rfl]
    rw [show jget [("label", Json.str lab), ("include_all", Json.arr (ia.map Json.str)),
        ("include_any", Json.arr (iy.map Json.str)), ("exclude", Json.arr (ex.map Json.str))]
        "include" = none from rfl]
    rw [show jget [("label", Json.str lab), ("include_all", Json.arr (ia.map Json.str)),
        ("include_any", Json.arr (iy.map Json.str)), ("exclude", Json.arr (ex.map Json.str))]
        "include_any" = some (Json.arr (iy.map Json.str)) from rfl]
    rw [show jget [("label", Json.str lab), ("include_all", Json.arr (ia.map Json.str)),
        ("include_any", Json.arr (iy.map Json.str)), ("exclude", Json.arr (ex.map Json.str))]
        "exclude" = some (Json.arr (ex.map Json.str)) from rfl]
    rw [show jget [("label", Json.str lab), ("include_all", Json.arr (ia.map Json.str)),
        ("include_any", Json.arr (iy.map Json.str)), ("exclude", Json.arr (ex.map Json.str))]
        "chats" = none from rfl]
    have htr : (Json.str lab).truthy = true := by simp [Json.truthy, hlab]
    rw [show pyOrOpt (some (Json.str lab)) none = some (Json.str lab) by
      simp [pyOrOpt, htr]]
    rw [show pyOrJ (some (Json.str lab)) (Json.str "") = Json.str lab by
      simp [pyOrJ, htr]]
    rw [show pyStr (Json.str lab) = lab from rfl, hstrip]
    rw [if_neg hlab]
    have eA : ensureList (pyOrOpt (some (Json.arr (ia.map Json.str))) none)
        "include_all" lab = .ok ia := by
      cases ia with
      | nil => rfl
      | cons a t =>
        rw [show pyOrOpt (some (Json.arr ((a :: t).map Json.str))) none =
          some (Json.arr ((a :: t).map Json.str)) from rfl]
        simp [ensureList, map_pyStr_str, pyStr_str]
    rw [eA]
    try dsimp only
    rw [show ensureList (some (Json.arr (iy.map Json.str))) "include_any" lab = .ok iy by
      simp [ensureList, map_pyStr_str, pyStr_str]]
    try dsimp only
    rw [show ensureList (some (Json.arr (ex.map Json.str))) "exclude" lab = .ok ex by
      simp [ensureList, map_pyStr_str, pyStr_str]]
    try dsimp only
    rw [show parseChatIds none lab = .ok none from rfl]
    try dsimp only
    rw [if_neg (not_and_or.mpr hkw)]
  | some s =>
    have hs : s ≠ [] := fun h => hch (by rw [h])
    refine ⟨⟨lab, ia, iy, ex, some ((sortedSet s).foldl setAdd [])⟩, ?_, rfl, rfl, rfl, rfl, ?_⟩
    · simp only [ruleToJson]
      try dsimp only
      rw [if_neg hs]
      simp only [List.cons_append, List.nil_append, List.append_nil]
      simp only [parseRawRule]
      rw [show jget [("label", Json.str lab), ("include_all", Json.arr (ia.map Json.str)),
          ("include_any", Json.arr (iy.map Json.str)), ("exclude", Json.arr (ex.map Json.str)),
          ("chats", Json.arr ((sortedSet s).map Json.int))]
          "label" = some (Json.str lab) from rfl]
      rw [show jget [("label", Json.str lab), ("include_all", Json.arr (ia.map Json.str)),
          ("include_any", Json.arr (iy.map Json.str)), ("exclude", Json.arr (ex.map Json.str)),
          ("chats", Json.arr ((sortedSet s).map Json.int))]
          "name" = none from rfl]
      rw [show jget [("label", Json.str lab), ("include_all", Json.arr (ia.map Json.str)),
          ("include_any", Json.arr (iy.map Json.str)), ("exclude", Json.arr (ex.map Json.str)),
          ("chats", Json.arr ((sortedSet s).map Json.int))]
          "include_all" = some (Json.arr (ia.map Json.str)) from rfl]
      rw [show jget [("label", Json.str lab), ("include_all", Json.arr (ia.map Json.str)),
          ("include_any", Json.arr (iy.map Json.str)), ("exclude", Json.arr (ex.map Json.str)),
          ("chats", Json.arr ((sortedSet s).map Json.int))]
          "include" = none from rfl]
      rw [show jget [("label", Json.str lab), ("include_all", Json.arr (ia.map Json.str)),
          ("include_any", Json.arr (iy.map Json.str)), ("exclude", Json.arr (ex.map Json.str)),
          ("chats", Json.arr ((sortedSet s).map Json.int))]
          "include_any" = some (Json.arr (iy.map Json.str)) from rfl]
      rw [show jget [("label", Json.str lab), ("include_all", Json.arr (ia.map Json.str)),
          ("include_any", Json.arr (iy.map Json.str)), ("exclude", Json.arr (ex.map Json.str)),
          ("chats", Json.arr ((sortedSet s).map Json.int))]
          "exclude" = some (Json.arr (ex.map Json.str)) from rfl]
      rw [show jget [("label", Json.str lab), ("include_all", Json.arr (ia.map Json.str)),
          ("include_any", Json.arr (iy.map Json.str)), ("exclude", Json.arr (ex.map Json.str)),
          ("chats", Json.arr ((sortedSet s).map Json.int))]
          "chats" = some (Json.arr ((sortedSet s).map Json.int)) from rfl]
      have htr : (Json.str lab).truthy = true := by simp [Json.truthy, hlab]
      rw [show pyOrOpt (some (Json.str lab)) none = some (Json.str lab) by
        simp [pyOrOpt, htr]]
      rw [show pyOrJ (some (Json.str lab)) (Json.str "") = Json.str lab by
        simp [pyOrJ, htr]]
      rw [show pyStr (Json.str lab) = lab from rfl, hstrip]
      rw [if_neg hlab]
      have eA : ensureList (pyOrOpt (some (Json.arr (ia.map Json.str))) none)
          "include_all" lab = .ok ia := by
        cases ia with
        | nil => rfl
        | cons a t =>
          rw [show pyOrOpt (some (Json.arr ((a :: t).map Json.str))) none =
            some (Json.arr ((a :: t).map Json.str)) from rfl]
          simp [ensureList, map_pyStr_str, pyStr_str]
      rw [eA]
      try dsimp only
      rw [show ensureList (some (Json.arr (iy.map Json.str))) "include_any" lab = .ok iy by
        simp [ensureList, map_pyStr_str, pyStr_str]]
      try dsimp only
      rw [show ensureList (some (Json.arr (ex.map Json.str))) "exclude" lab = .ok ex by
        simp [ensureList, map_pyStr_str, pyStr_str]]
      try dsimp only
      have hSne : (sortedSet s).foldl setAdd [] ≠ [] := by
        obtain ⟨a, ha⟩ := List.exists_mem_of_ne_nil s hs
        have : a ∈ (sortedSet s).foldl setAdd [] := by
          rw [mem_foldl_setAdd]
          exact Or.inr (mem_sortedSet.mpr ha)
        exact List.ne_nil_of_mem this
      rw [show parseChatIds (some (Json.arr ((sortedSet s).map Json.int))) lab =
          .ok (some ((sortedSet s).foldl setAdd [])) by
        simp only [parseChatIds, parseChatIdItems_ints]
        rw [if_neg hSne]]
      try dsimp only
      rw [if_neg (not_and_or.mpr hkw)]
    · intro cid
      cases cid with
      | none => rfl
      | some c =>
        simp only [Rule.applies_to_chat]
        rw [decide_eq_decide]
        rw [mem_foldl_setAdd, mem_sortedSet]
        simp

/-- Saving and re-parsing a list of valid rules yields a pointwise
equivalent list. -/
theorem parseRawRules_roundTrip (rules : List Rule)
    (h : ∀ r ∈ rules, r.label ≠ "" ∧ pyStrip r.label = r.label ∧
      (r.include_all ≠ [] ∨ r.include_any ≠ []) ∧ r.chat_ids ≠ some []) :
    ∃ rules' : List Rule, parseRawRules (rules.map ruleToJson) = .ok rules' ∧
      List.Forall₂ ruleEquiv rules' rules := by
  induction rules with
  | nil => exact ⟨[], rfl, List.Forall₂.nil⟩
  | cons r rest ih =>
    obtain ⟨hl, hst, hk, hc⟩ := h r (List.mem_cons_self _ _)
    obtain ⟨r', hr', heq⟩ := parseRawRule_roundTrip r hl hst hk hc
    obtain ⟨rest', hrest', heqs⟩ := ih (fun x hx => h x (List.mem_cons_of_mem _ hx))
    refine ⟨r' :: rest', ?_, List.Forall₂.cons heq heqs⟩
    simp only [List.map_cons, parseRawRules, hr', hrest']

/-- C6 counterexample: the rule set `[c6BadRule]` is valid exactly as the
claim demands (non-empty label `" "`, an include keyword, chat scope
absent), yet `save` followed by `load` fails outright — `load` strips the
saved label and rejects it as missing — so no behaviorally equal `RuleSet`
is returned. -/
theorem c6_counterexample :
    c6BadRule.label ≠ "" ∧
    (c6BadRule.include_all ≠ [] ∨ c6BadRule.include_any ≠ []) ∧
    c6BadRule.chat_ids = none ∧
    load_rules (.parsed (save_rules [c6BadRule])) =
      .error "Setiap rule wajib memiliki field \x27label\x27." :=
  ⟨by decide, Or.inl (by decide), rfl, rfl⟩

/-- C6 (amended): for every rule set whose rules have a non-empty label that
is already stripped, at least one include keyword, and a chat scope that is
absent or non-empty, `save` followed by `load` succeeds and the loaded set
is behaviorally equal — `match` returns the same labels in the same order
for every `(chat_id, text)` — though optional fields in the file are
normalized. -/
theorem c6_persistence_round_trip (R : RuleSet)
    (hval : ∀ r ∈ R.rules, r.label ≠ "" ∧ pyStrip r.label = r.label ∧
      (r.include_all ≠ [] ∨ r.include_any ≠ []) ∧ r.chat_ids ≠ some []) :
    ∃ rs : RuleSet, load_rules (.parsed (save_rules R.rules)) = .ok rs ∧
      ∀ (cid : Option Int) (text : String),
        (rs.matchRules cid text).map Rule.label =
        (R.matchRules cid text).map Rule.label := by
  obtain ⟨rules', hp, hf⟩ := parseRawRules_roundTrip R.rules hval
  refine ⟨RuleSet.ofRules rules', ?_, ?_⟩
  · simp only [load_rules, save_rules]
    have hj : pyOrJ (jget [("rules", Json.arr (R.rules.map ruleToJson))] "rules")
        (Json.arr []) = Json.arr (R.rules.map ruleToJson) := by
      cases hR : R.rules with
      | nil => rfl
      | cons a l =>
        rw [show jget [("rules", Json.arr ((a :: l).map ruleToJson))] "rules" =
          some (Json.arr ((a :: l).map ruleToJson)) from rfl]
        rfl
    rw [hj]
    dsimp only
    rw [hp]
  · intro cid text
    simp only [RuleSet.matchRules, RuleSet.ofRules]
    exact filter_labels_congr hf cid (casefold text)

theorem c6_witness :
    ∃ rs : RuleSet,
      load_rules (.parsed (save_rules (RuleSet.ofRules [c4Rule]).rules)) = .ok rs ∧
      ∀ (cid : Option Int) (text : String),
        (rs.matchRules cid text).map Rule.label =
        ((RuleSet.ofRules [c4Rule]).matchRules cid text).map Rule.label :=
  c6_persistence_round_trip (RuleSet.ofRules [c4Rule]) (by decide)

end PersonalUserbot
